import Mathlib

/-
Verification of samples/src/get_from_callbacks_api.cc from the
MYNT-EYE-D-SDK repository.

The sample program configures a stream request, registers three console
callbacks (image info, per-stream data, motion/IMU data) guarded by one
mutex, opens the device, creates one display window per supported stream,
and runs a render loop until a quit key is pressed.

The embedding below mirrors the source: enumerations and the request
record follow the C++ declarations, the body of main is modelled as a
function from an environment (device-open flag, per-stream support, and
a per-iteration oracle giving frame availability and the key read) to a
trace of observable events plus an optional process exit code, and each
callback closure is modelled as the list of actions (mutex lock/unlock,
console writes, flush) its body performs.
-/

namespace Mynteyed

/-- Image stream kinds used by the sample (enum Stream in the SDK headers,
values as referenced from the source file). -/
inductive Stream where
  | IMAGE_LEFT_COLOR
  | IMAGE_RIGHT_COLOR
  | IMAGE_DEPTH
deriving DecidableEq, Repr

/-- Stream resolution modes referenced in the source file's comments and code. -/
inductive StreamMode where
  | STREAM_640x480
  | STREAM_1280x720
  | STREAM_1280x480
  | STREAM_2560x720
deriving DecidableEq, Repr

/-- Color processing modes (raw is the documented default). -/
inductive ColorMode where
  | COLOR_RAW
  | COLOR_RECTIFIED
deriving DecidableEq, Repr

/-- Depth processing modes (colorful is the documented default). -/
inductive DepthMode where
  | DEPTH_COLORFUL
  | DEPTH_GRAY
  | DEPTH_RAW
deriving DecidableEq, Repr

/-- Target pixel formats used by the render loop's conversions. -/
inductive ImageFormat where
  | COLOR_BGR
  | DEPTH_BGR
deriving DecidableEq, Repr

/-- The stream request record configured by main (fields referenced by the
source file). -/
structure StreamRequest where
  framerate : Nat
  stream_mode : StreamMode
  color_mode : ColorMode
  depth_mode : DepthMode
  state_ae : Bool
  state_awb : Bool
deriving DecidableEq, Repr

/-- Modelled from the spec: the request returned by API::SelectStreamRequest
(SDK code not in this slice). Its defaults are the ones documented in the
source file's comments: framerate 10, color raw, depth colorful,
auto-exposure and auto-white-balance on. The default resolution is not
documented in this slice and is immaterial because main overwrites it. -/
def defaultStreamRequest : StreamRequest :=
  { framerate := 10
    stream_mode := StreamMode.STREAM_1280x720
    color_mode := ColorMode.COLOR_RAW
    depth_mode := DepthMode.DEPTH_COLORFUL
    state_ae := true
    state_awb := true }

/-- The request main builds: the selected request with framerate set to 30
and stream mode set to STREAM_2560x720 (lines 34 and 53 of the source). -/
def mainRequest : StreamRequest :=
  { defaultStreamRequest with
    framerate := 30
    stream_mode := StreamMode.STREAM_2560x720 }

/-- Documented legal framerate upper bound per stream mode, from the source
comment: 10(default), range 0 to 60, and 0 to 30 for STREAM_2560x720. -/
def maxFramerate : StreamMode → Nat
  | StreamMode.STREAM_2560x720 => 30
  | _ => 60

/-- Observable events of main's straight-line body and render loop. -/
inductive Ev where
  | coutLine (s : String)
  | cerrLine (s : String)
  | namedWindow (n : String)
  | convert (fmt : ImageFormat)
  | drawSize
  | drawStreamData
  | drawInformation
  | imshow (n : String)
deriving DecidableEq, Repr

/-- True for console output events. -/
def Ev.isConsole : Ev → Bool
  | Ev.coutLine _ => true
  | Ev.cerrLine _ => true
  | _ => false

/-- True for window-creation events. -/
def Ev.isWindowCreate : Ev → Bool
  | Ev.namedWindow _ => true
  | _ => false

/-- Window title used for each stream (cv::namedWindow / cv::imshow names). -/
def windowName : Stream → String
  | Stream.IMAGE_LEFT_COLOR => "left color"
  | Stream.IMAGE_RIGHT_COLOR => "right color"
  | Stream.IMAGE_DEPTH => "depth"

/-- Per-iteration environment: whether GetStreamData returned a non-null
image for each stream, and the key read by cv::waitKey cast to char. -/
structure IterEnv where
  frames : Stream → Bool
  key : Int

/-- Quit-key test from the loop tail: key == 27 || key == 'q' || key == 'Q'
(as char codes, 'q' is 113 and 'Q' is 81). -/
def quitKey (k : Int) : Bool :=
  k == 27 || k == 113 || k == 81

/-- Events produced by one stream's guarded render block in one loop
iteration, mirroring the three if-blocks of the source loop body: skip when
the stream is unsupported or the fetched image is null; otherwise convert
(for depth only when the depth mode is colorful), draw overlays and show. -/
def streamEvents (req : StreamRequest) (supports : Stream → Bool)
    (e : IterEnv) : Stream → List Ev
  | Stream.IMAGE_LEFT_COLOR =>
      if supports Stream.IMAGE_LEFT_COLOR then
        if e.frames Stream.IMAGE_LEFT_COLOR then
          [Ev.convert ImageFormat.COLOR_BGR, Ev.drawSize, Ev.drawStreamData,
           Ev.drawInformation, Ev.imshow "left color"]
        else []
      else []
  | Stream.IMAGE_RIGHT_COLOR =>
      if supports Stream.IMAGE_RIGHT_COLOR then
        if e.frames Stream.IMAGE_RIGHT_COLOR then
          [Ev.convert ImageFormat.COLOR_BGR, Ev.drawSize, Ev.drawStreamData,
           Ev.imshow "right color"]
        else []
      else []
  | Stream.IMAGE_DEPTH =>
      if supports Stream.IMAGE_DEPTH then
        if e.frames Stream.IMAGE_DEPTH then
          (if req.depth_mode = DepthMode.DEPTH_COLORFUL then
            [Ev.convert ImageFormat.DEPTH_BGR]
          else []) ++
          [Ev.drawSize, Ev.drawStreamData, Ev.imshow "depth"]
        else []
      else []

/-- Events of one full loop iteration: the three stream blocks in source
order (left, right, depth). -/
def iterEvents (req : StreamRequest) (supports : Stream → Bool)
    (e : IterEnv) : List Ev :=
  streamEvents req supports e Stream.IMAGE_LEFT_COLOR ++
  streamEvents req supports e Stream.IMAGE_RIGHT_COLOR ++
  streamEvents req supports e Stream.IMAGE_DEPTH

/-- Result of running the render loop over a finite prefix of iteration
environments: the events emitted, whether a quit key broke the loop, and
how many iterations ran. -/
structure LoopResult where
  events : List Ev
  broke : Bool
  steps : Nat
deriving DecidableEq, Repr

/-- The render loop: run iterations in order, breaking after the first
iteration whose key is a quit key. A run that exhausts the supplied
environments without a quit key reports broke = false (in the program the
loop would simply continue). -/
def runLoop (req : StreamRequest) (supports : Stream → Bool) :
    List IterEnv → LoopResult
  | [] => ⟨[], false, 0⟩
  | e :: rest =>
      let evs := iterEvents req supports e
      if quitKey e.key then ⟨evs, true, 1⟩
      else
        let r := runLoop req supports rest
        ⟨evs ++ r.events, r.broke, r.steps + 1⟩

/-- Window creation after a successful open: one namedWindow per supported
stream, in source order. -/
def windowSetup (supports : Stream → Bool) : List Ev :=
  (if supports Stream.IMAGE_LEFT_COLOR then
    [Ev.namedWindow "left color"] else []) ++
  (if supports Stream.IMAGE_RIGHT_COLOR then
    [Ev.namedWindow "right color"] else []) ++
  (if supports Stream.IMAGE_DEPTH then
    [Ev.namedWindow "depth"] else [])

/-- Device state visible to main: whether IsOpened reports true and which
streams Supports reports as available. -/
structure Api where
  isOpened : Bool
  supports : Stream → Bool

/-- The body of main after callback registration, as a trace of events and
an optional exit code: print a blank line, check IsOpened (on failure print
to stderr and return 1), otherwise print the banner, create the windows and
run the loop; exit code 0 when the loop broke on a quit key, none when the
supplied iteration prefix ran out (the program would keep looping). -/
def mainRun (api : Api) (iters : List IterEnv) : List Ev × Option Nat :=
  let pre := [Ev.coutLine ""]
  if api.isOpened = false then
    (pre ++ [Ev.cerrLine "Error: Open camera failed"], some 1)
  else
    let banner := [Ev.coutLine "Open device success", Ev.coutLine "",
                   Ev.coutLine "Press ESC/Q on Windows to terminate"]
    let r := runLoop mainRequest api.supports iters
    (pre ++ banner ++ windowSetup api.supports ++ r.events,
     if r.broke then some 0 else none)

/-- Modelled from the spec: the IMU sample tag value marking an
accelerometer sample (macro MYNTEYE_IMU_ACCEL from an SDK header not in
this slice). Only its being distinct from the gyroscope tag matters here. -/
def MYNTEYE_IMU_ACCEL : Nat := 1

/-- Modelled from the spec: the IMU sample tag value marking a gyroscope
sample (macro MYNTEYE_IMU_GYRO from an SDK header not in this slice). -/
def MYNTEYE_IMU_GYRO : Nat := 2

/-- Image metadata delivered to the image-info callback. -/
structure ImgInfo where
  frame_id : Nat
  timestamp : Nat
  exposure_time : Nat
deriving DecidableEq, Repr

/-- Stream data delivered to the per-stream callback: the image's stream
type and frame id, the only fields the callback reads. -/
structure StreamData where
  imgType : Stream
  frame_id : Nat
deriving DecidableEq, Repr

/-- IMU sample delivered to the motion callback. The axis values and
temperature are doubles in the source; they are only echoed to the console,
so they are carried as integers here without affecting any branch. -/
structure ImuData where
  flag : Nat
  timestamp : Nat
  accel0 : Int
  accel1 : Int
  accel2 : Int
  gyro0 : Int
  gyro1 : Int
  gyro2 : Int
  temperature : Int
deriving DecidableEq, Repr

/-- One formatted motion line: the constructor records which branch's
format produced it, carrying the fields that branch prints. -/
inductive MotionLine where
  | accelFmt (stamp : Nat) (x y z : Int) (temp : Int)
  | gyroFmt (stamp : Nat) (x y z : Int) (temp : Int)
deriving DecidableEq, Repr

/-- True for lines produced by the accelerometer branch's format. -/
def MotionLine.isAccelFmt : MotionLine → Bool
  | MotionLine.accelFmt _ _ _ _ _ => true
  | _ => false

/-- True for lines produced by the gyroscope branch's format. -/
def MotionLine.isGyroFmt : MotionLine → Bool
  | MotionLine.gyroFmt _ _ _ _ _ => true
  | _ => false

/-- The literal text of a motion line, mirroring the stream inserts of the
source. -/
def MotionLine.render : MotionLine → String
  | MotionLine.accelFmt stamp x y z temp =>
      "[accel] stamp: " ++ toString stamp ++ ", x: " ++ toString x ++
      ", y: " ++ toString y ++ ", z: " ++ toString z ++
      ", temp: " ++ toString temp
  | MotionLine.gyroFmt stamp x y z temp =>
      "[gyro] stamp: " ++ toString stamp ++ ", x: " ++ toString x ++
      ", y: " ++ toString y ++ ", z: " ++ toString z ++
      ", temp: " ++ toString temp

/-- Lines printed by the motion callback body for one sample: the accel
branch when the tag equals the accel flag, else the gyro branch when it
equals the gyro flag, else nothing. -/
def motionLines (d : ImuData) : List MotionLine :=
  if d.flag = MYNTEYE_IMU_ACCEL then
    [MotionLine.accelFmt d.timestamp d.accel0 d.accel1 d.accel2
      d.temperature]
  else if d.flag = MYNTEYE_IMU_GYRO then
    [MotionLine.gyroFmt d.timestamp d.gyro0 d.gyro1 d.gyro2 d.temperature]
  else []

/-- Actions a callback body performs, in order: taking or releasing a
mutex (by identity; the sample has a single mutex, number 0), writing a
line to stdout, flushing stdout. -/
inductive Act where
  | lock (m : Nat)
  | unlock (m : Nat)
  | write (s : String)
  | flushOut
deriving DecidableEq, Repr

/-- Line printed by the image-info callback. -/
def imgInfoLine (info : ImgInfo) : String :=
  "  [img_info] fid: " ++ toString info.frame_id ++
  ", stamp: " ++ toString info.timestamp ++
  ", expos: " ++ toString info.exposure_time

/-- Printable name of a stream type (operator insert of the enum). -/
def streamTypeName : Stream → String
  | Stream.IMAGE_LEFT_COLOR => "IMAGE_LEFT_COLOR"
  | Stream.IMAGE_RIGHT_COLOR => "IMAGE_RIGHT_COLOR"
  | Stream.IMAGE_DEPTH => "IMAGE_DEPTH"

/-- Line printed by the per-stream data callback. -/
def streamLine (d : StreamData) : String :=
  "  [" ++ streamTypeName d.imgType ++ "] fid: " ++ toString d.frame_id

/-- Action trace of the image-info callback body: lock_guard on the shared
mutex, one line with endl, flush, release at end of scope. -/
def imgInfoCallback (info : ImgInfo) : List Act :=
  [Act.lock 0, Act.write (imgInfoLine info), Act.flushOut, Act.unlock 0]

/-- Action trace of the per-stream data callback body. -/
def streamCallback (d : StreamData) : List Act :=
  [Act.lock 0, Act.write (streamLine d), Act.flushOut, Act.unlock 0]

/-- Action trace of the motion callback body: lock_guard, the branch's
line if any, the unconditional flush, release at end of scope. -/
def motionCallback (d : ImuData) : List Act :=
  Act.lock 0 ::
    ((motionLines d).map (fun l => Act.write l.render) ++
      [Act.flushOut, Act.unlock 0])

/-- Checks, given the number of locks currently held, that every write in
the action list happens while at least one lock is held. -/
def writesLocked : Nat → List Act → Bool
  | _, [] => true
  | d, Act.lock _ :: r => writesLocked (d + 1) r
  | d, Act.unlock _ :: r => writesLocked (d - 1) r
  | d, Act.write _ :: r => decide (0 < d) && writesLocked d r
  | d, Act.flushOut :: r => writesLocked d r

/-- Checks that every lock and unlock in the list names mutex m, so the
trace touches no mutex but the single shared one. -/
def usesOnlyMutex (m : Nat) : List Act → Bool
  | [] => true
  | Act.lock k :: r => (k == m) && usesOnlyMutex m r
  | Act.unlock k :: r => (k == m) && usesOnlyMutex m r
  | _ :: r => usesOnlyMutex m r

theorem quitKey_iff (k : Int) :
    quitKey k = true ↔
      (k = 27 ∨ k = ('q'.toNat : Int) ∨ k = ('Q'.toNat : Int)) := by
  have hq : ('q'.toNat : Int) = 113 := by decide
  have hQ : ('Q'.toNat : Int) = 81 := by decide
  simp [quitKey, hq, hQ, or_assoc]

theorem quitKey_false_iff (k : Int) :
    quitKey k = false ↔
      ¬(k = 27 ∨ k = ('q'.toNat : Int) ∨ k = ('Q'.toNat : Int)) := by
  rw [← quitKey_iff]
  cases h : quitKey k <;> simp [h]

theorem streamEvents_console_free (req : StreamRequest)
    (supports : Stream → Bool) (e : IterEnv) (s : Stream) :
    (streamEvents req supports e s).all (fun ev => !ev.isConsole) = true := by
  cases s <;> simp only [streamEvents] <;> (repeat' split) <;> rfl

theorem streamEvents_window_free (req : StreamRequest)
    (supports : Stream → Bool) (e : IterEnv) (s : Stream) :
    (streamEvents req supports e s).all
      (fun ev => !ev.isWindowCreate) = true := by
  cases s <;> simp only [streamEvents] <;> (repeat' split) <;> rfl

theorem iterEvents_console_free (req : StreamRequest)
    (supports : Stream → Bool) (e : IterEnv) :
    (iterEvents req supports e).all (fun ev => !ev.isConsole) = true := by
  simp [iterEvents, List.all_append, streamEvents_console_free]

theorem iterEvents_window_free (req : StreamRequest)
    (supports : Stream → Bool) (e : IterEnv) :
    (iterEvents req supports e).all (fun ev => !ev.isWindowCreate) = true := by
  simp [iterEvents, List.all_append, streamEvents_window_free]

theorem runLoop_window_free (req : StreamRequest) (supports : Stream → Bool)
    (l : List IterEnv) :
    ((runLoop req supports l).events).all
      (fun ev => !ev.isWindowCreate) = true := by
  induction l with
  | nil => rfl
  | cons e rest ih =>
      cases hq : quitKey e.key <;>
        simp [runLoop, hq, List.all_append, ih, iterEvents_window_free]

theorem runLoop_broke_iff (req : StreamRequest) (supports : Stream → Bool)
    (l : List IterEnv) :
    (runLoop req supports l).broke = true ↔
      ∃ e ∈ l, quitKey e.key = true := by
  induction l with
  | nil => simp [runLoop]
  | cons e rest ih =>
      cases hq : quitKey e.key <;> simp [runLoop, hq, ih]

theorem runLoop_append_of_no_quit (req : StreamRequest)
    (supports : Stream → Bool) :
    ∀ pre rest : List IterEnv, (∀ p ∈ pre, quitKey p.key = false) →
      (runLoop req supports (pre ++ rest)).broke =
        (runLoop req supports rest).broke ∧
      (runLoop req supports (pre ++ rest)).steps =
        pre.length + (runLoop req supports rest).steps := by
  intro pre
  induction pre with
  | nil => intro rest _; simp
  | cons p ps ih =>
      intro rest h
      have hp : quitKey p.key = false := h p (List.mem_cons_self p ps)
      rcases ih rest (fun q hq => h q (List.mem_cons_of_mem p hq)) with
        ⟨h1, h2⟩
      constructor
      · simpa [runLoop, List.cons_append, hp] using h1
      · simp [runLoop, List.cons_append, hp, h2]
        omega

theorem mem_windowSetup_iff (supports : Stream → Bool) (s : Stream) :
    Ev.namedWindow (windowName s) ∈ windowSetup supports ↔
      supports s = true := by
  cases s <;>
    cases h1 : supports Stream.IMAGE_LEFT_COLOR <;>
    cases h2 : supports Stream.IMAGE_RIGHT_COLOR <;>
    cases h3 : supports Stream.IMAGE_DEPTH <;>
    simp [windowSetup, windowName, h1, h2, h3]

theorem streamEvents_imshow_name (req : StreamRequest)
    (supports : Stream → Bool) (e : IterEnv) (s : Stream) (n : String) :
    Ev.imshow n ∈ streamEvents req supports e s → n = windowName s := by
  intro h
  cases s <;> simp only [streamEvents] at h <;> (repeat' split at h) <;>
    simp_all [windowName]

theorem mainRun_failed (api : Api) (iters : List IterEnv)
    (h : api.isOpened = false) :
    mainRun api iters =
      ([Ev.coutLine "", Ev.cerrLine "Error: Open camera failed"], some 1) := by
  simp [mainRun, h]

theorem mainRun_opened (api : Api) (iters : List IterEnv)
    (h : api.isOpened = true) :
    mainRun api iters =
      ([Ev.coutLine "", Ev.coutLine "Open device success", Ev.coutLine "",
        Ev.coutLine "Press ESC/Q on Windows to terminate"] ++
        windowSetup api.supports ++
        (runLoop mainRequest api.supports iters).events,
       if (runLoop mainRequest api.supports iters).broke then some 0
       else none) := by
  simp [mainRun, h]

/-- Claim C1: in every loop iteration, a stream whose support check failed
or whose fetched image is null has an empty render trace for that
iteration (the block is skipped whole: no retry, no escalation), and the
loop body writes nothing to the console, so the skip is never logged. -/
theorem failures_silently_skipped (req : StreamRequest)
    (supports : Stream → Bool) (e : IterEnv) (s : Stream)
    (h : supports s = false ∨ e.frames s = false) :
    streamEvents req supports e s = [] ∧
    ∀ ev ∈ iterEvents req supports e, ev.isConsole = false := by
  constructor
  · rcases h with h | h <;> cases s <;> simp [streamEvents, h]
  · have hc := iterEvents_console_free req supports e
    rw [List.all_eq_true] at hc
    intro ev hev
    simpa using hc ev hev

theorem failures_silently_skipped_witness :
    streamEvents mainRequest (fun _ => false)
      ⟨fun _ => false, 0⟩ Stream.IMAGE_LEFT_COLOR = [] :=
  (failures_silently_skipped mainRequest (fun _ => false)
    ⟨fun _ => false, 0⟩ Stream.IMAGE_LEFT_COLOR (Or.inl rfl)).1

/-- Claim C2: when IsOpened reports false, main returns exit code 1, the
error line goes to standard error, and the trace contains no
window-creation event at all. -/
theorem open_failure_exits_first (api : Api) (iters : List IterEnv)
    (h : api.isOpened = false) :
    (mainRun api iters).2 = some 1 ∧
    Ev.cerrLine "Error: Open camera failed" ∈ (mainRun api iters).1 ∧
    ∀ n, Ev.namedWindow n ∉ (mainRun api iters).1 := by
  rw [mainRun_failed api iters h]
  refine ⟨rfl, by simp, ?_⟩
  intro n
  simp

theorem open_failure_exits_first_witness :
    (mainRun ⟨false, fun _ => false⟩ []).2 = some 1 :=
  (open_failure_exits_first ⟨false, fun _ => false⟩ [] rfl).1

/-- Claim C3: main's exit code is 1 exactly when the device open check
fails, 0 exactly when the device opened and some iteration read a quit key
(ESC, q or Q), and no value other than 0 or 1 is ever returned. -/
theorem main_exit_codes (api : Api) (iters : List IterEnv) :
    ((mainRun api iters).2 = some 1 ↔ api.isOpened = false) ∧
    ((mainRun api iters).2 = some 0 ↔
      api.isOpened = true ∧ ∃ e ∈ iters,
        (e.key = 27 ∨ e.key = ('q'.toNat : Int) ∨
          e.key = ('Q'.toNat : Int))) ∧
    (∀ c, (mainRun api iters).2 = some c → c = 0 ∨ c = 1) := by
  have hquit : (∃ e ∈ iters, quitKey e.key = true) ↔
      ∃ e ∈ iters, (e.key = 27 ∨ e.key = ('q'.toNat : Int) ∨
        e.key = ('Q'.toNat : Int)) := by
    constructor
    · rintro ⟨e, he, hk⟩
      exact ⟨e, he, (quitKey_iff e.key).mp hk⟩
    · rintro ⟨e, he, hk⟩
      exact ⟨e, he, (quitKey_iff e.key).mpr hk⟩
  cases ho : api.isOpened with
  | false =>
      rw [mainRun_failed api iters ho]
      refine ⟨by simp, by simp [ho], ?_⟩
      intro c hc
      simp at hc
      omega
  | true =>
      rw [mainRun_opened api iters ho]
      cases hb : (runLoop mainRequest api.supports iters).broke with
      | false =>
          have hne : ¬∃ e ∈ iters, quitKey e.key = true := by
            rw [← runLoop_broke_iff mainRequest api.supports iters, hb]
            simp
          refine ⟨by simp [hb, ho], ?_, ?_⟩
          · constructor
            · intro hcontra
              simp [hb] at hcontra
            · rintro ⟨-, hex⟩
              exact absurd (hquit.mpr hex) hne
          · intro c hc
            simp [hb] at hc
      | true =>
          have hex : ∃ e ∈ iters, quitKey e.key = true := by
            rw [← runLoop_broke_iff mainRequest api.supports iters, hb]
          refine ⟨by simp [hb, ho], ?_, ?_⟩
          · simp [hb, ho]
            exact hquit.mp hex
          · intro c hc
            simp [hb] at hc
            omega

theorem main_exit_codes_witness :
    (mainRun ⟨true, fun _ => false⟩ [⟨fun _ => false, 27⟩]).2 = some 0 :=
  (main_exit_codes ⟨true, fun _ => false⟩ [⟨fun _ => false, 27⟩]).2.1.mpr
    ⟨rfl, ⟨⟨fun _ => false, 27⟩, List.mem_singleton.mpr rfl, Or.inl rfl⟩⟩

/-- Claim C4: at the first iteration the loop reaches (all earlier
iterations read non-quit keys), the loop breaks after that iteration
exactly when its key is ESC (27), q or Q; on any other key the loop
continues into the remaining iterations, so no other condition exits it. -/
theorem loop_exits_iff_quit_key (req : StreamRequest)
    (supports : Stream → Bool) (pre post : List IterEnv) (e : IterEnv)
    (hpre : ∀ p ∈ pre,
      ¬(p.key = 27 ∨ p.key = ('q'.toNat : Int) ∨
        p.key = ('Q'.toNat : Int))) :
    ((e.key = 27 ∨ e.key = ('q'.toNat : Int) ∨
        e.key = ('Q'.toNat : Int)) →
      (runLoop req supports (pre ++ e :: post)).broke = true ∧
      (runLoop req supports (pre ++ e :: post)).steps = pre.length + 1) ∧
    (¬(e.key = 27 ∨ e.key = ('q'.toNat : Int) ∨
        e.key = ('Q'.toNat : Int)) →
      (runLoop req supports (pre ++ e :: post)).broke =
        (runLoop req supports post).broke ∧
      (runLoop req supports (pre ++ e :: post)).steps =
        pre.length + 1 + (runLoop req supports post).steps) := by
  have hpre2 : ∀ p ∈ pre, quitKey p.key = false := fun p hp =>
    (quitKey_false_iff p.key).mpr (hpre p hp)
  rcases runLoop_append_of_no_quit req supports pre (e :: post) hpre2 with
    ⟨hb, hs⟩
  constructor
  · intro hk
    have hq : quitKey e.key = true := (quitKey_iff e.key).mpr hk
    refine ⟨?_, ?_⟩
    · rw [hb]
      simp [runLoop, hq]
    · rw [hs]
      simp [runLoop, hq]
  · intro hk
    have hq : quitKey e.key = false := (quitKey_false_iff e.key).mpr hk
    refine ⟨?_, ?_⟩
    · rw [hb]
      simp [runLoop, hq]
    · rw [hs]
      simp [runLoop, hq]
      omega

theorem loop_exits_iff_quit_key_witness :
    (runLoop mainRequest (fun _ => true)
      [⟨fun _ => false, 113⟩]).broke = true ∧
    (runLoop mainRequest (fun _ => true)
      [⟨fun _ => false, 113⟩]).steps = 1 :=
  (loop_exits_iff_quit_key mainRequest (fun _ => true) [] []
    ⟨fun _ => false, 113⟩ (by simp)).1 (Or.inr (Or.inl (by decide)))

/-- Claim C5: the motion callback routes a sample tagged with the
accelerometer flag to the accel format and a sample tagged with the
gyroscope flag to the gyro format, and no sample is ever printed by both
branches. -/
theorem motion_branches_mutually_exclusive (d : ImuData) :
    (d.flag = MYNTEYE_IMU_ACCEL →
      motionLines d = [MotionLine.accelFmt d.timestamp d.accel0 d.accel1
        d.accel2 d.temperature]) ∧
    (d.flag = MYNTEYE_IMU_GYRO →
      motionLines d = [MotionLine.gyroFmt d.timestamp d.gyro0 d.gyro1
        d.gyro2 d.temperature]) ∧
    ¬((∃ l ∈ motionLines d, l.isAccelFmt = true) ∧
      (∃ l ∈ motionLines d, l.isGyroFmt = true)) := by
  refine ⟨?_, ?_, ?_⟩
  · intro h
    simp [motionLines, h]
  · intro h
    simp [motionLines, h, MYNTEYE_IMU_ACCEL, MYNTEYE_IMU_GYRO]
  · by_cases h1 : d.flag = 1 <;> by_cases h2 : d.flag = 2 <;>
    simp [motionLines, MYNTEYE_IMU_ACCEL, MYNTEYE_IMU_GYRO, h1, h2,
      MotionLine.isAccelFmt, MotionLine.isGyroFmt]

theorem motion_branches_mutually_exclusive_witness :
    motionLines ⟨1, 10, 2, 3, 4, 5, 6, 7, 8⟩ =
      [MotionLine.accelFmt 10 2 3 4 8] :=
  (motion_branches_mutually_exclusive ⟨1, 10, 2, 3, 4, 5, 6, 7, 8⟩).1 rfl

/-- Claim C6: in an iteration where the depth stream is supported and a
depth frame is present, the conversion to the BGR depth format happens
exactly when the configured depth mode is DEPTH_COLORFUL; in any other
mode the depth block performs no format conversion at all. -/
theorem depth_conversion_iff_colorful (req : StreamRequest)
    (supports : Stream → Bool) (e : IterEnv)
    (hs : supports Stream.IMAGE_DEPTH = true)
    (hf : e.frames Stream.IMAGE_DEPTH = true) :
    (Ev.convert ImageFormat.DEPTH_BGR ∈
        streamEvents req supports e Stream.IMAGE_DEPTH ↔
      req.depth_mode = DepthMode.DEPTH_COLORFUL) ∧
    (req.depth_mode ≠ DepthMode.DEPTH_COLORFUL →
      ∀ fmt, Ev.convert fmt ∉
        streamEvents req supports e Stream.IMAGE_DEPTH) := by
  cases hdm : req.depth_mode <;> simp [streamEvents, hs, hf, hdm]

theorem depth_conversion_iff_colorful_witness :
    Ev.convert ImageFormat.DEPTH_BGR ∈
      streamEvents mainRequest (fun _ => true) ⟨fun _ => true, 0⟩
        Stream.IMAGE_DEPTH :=
  (depth_conversion_iff_colorful mainRequest (fun _ => true)
    ⟨fun _ => true, 0⟩ rfl rfl).1.mpr rfl

/-- Claim C7: after a successful open, a window named after a stream is in
the trace exactly when that stream is reported supported, under the names
given by windowName; and every imshow a stream's render block emits uses
that same window name. -/
theorem windows_follow_support (api : Api) (iters : List IterEnv)
    (s : Stream) (h : api.isOpened = true) :
    (Ev.namedWindow (windowName s) ∈ (mainRun api iters).1 ↔
      api.supports s = true) ∧
    (∀ (req : StreamRequest) (sup : Stream → Bool) (e : IterEnv)
      (n : String),
      Ev.imshow n ∈ streamEvents req sup e s → n = windowName s) := by
  constructor
  · rw [mainRun_opened api iters h]
    have hloop := runLoop_window_free mainRequest api.supports iters
    rw [List.all_eq_true] at hloop
    constructor
    · intro hm
      simp only [List.mem_append] at hm
      rcases hm with (hm | hm) | hm
      · simp at hm
      · exact (mem_windowSetup_iff api.supports s).mp hm
      · have hw := hloop _ hm
        simp [Ev.isWindowCreate] at hw
    · intro hsup
      simp only [List.mem_append]
      exact Or.inl (Or.inr ((mem_windowSetup_iff api.supports s).mpr hsup))
  · intro req sup e n hm
    exact streamEvents_imshow_name req sup e s n hm

theorem windows_follow_support_witness :
    Ev.namedWindow (windowName Stream.IMAGE_DEPTH) ∈
      (mainRun ⟨true, fun _ => true⟩ []).1 :=
  (windows_follow_support ⟨true, fun _ => true⟩ [] Stream.IMAGE_DEPTH
    rfl).1.mpr rfl

/-- Claim C8: the framerate main assigns (30) lies in the documented
general range up to 60, and also in the narrower range up to 30 that the
source documents for the STREAM_2560x720 mode main selects. -/
theorem framerate_within_documented_range :
    mainRequest.framerate ≤ 60 ∧
    mainRequest.stream_mode = StreamMode.STREAM_2560x720 ∧
    mainRequest.framerate ≤ maxFramerate mainRequest.stream_mode := by
  decide

/-- Claim C9: in each of the three callback bodies, every console write is
performed while the mutex is held (the lock_guard spans the whole body),
and the only mutex any callback touches is the single shared one. -/
theorem callbacks_write_under_mutex (info : ImgInfo) (sd : StreamData)
    (d : ImuData) :
    writesLocked 0 (imgInfoCallback info) = true ∧
    usesOnlyMutex 0 (imgInfoCallback info) = true ∧
    writesLocked 0 (streamCallback sd) = true ∧
    usesOnlyMutex 0 (streamCallback sd) = true ∧
    writesLocked 0 (motionCallback d) = true ∧
    usesOnlyMutex 0 (motionCallback d) = true := by
  refine ⟨rfl, rfl, rfl, rfl, ?_, ?_⟩ <;>
    by_cases h1 : d.flag = MYNTEYE_IMU_ACCEL <;>
    by_cases h2 : d.flag = MYNTEYE_IMU_GYRO <;>
    simp [motionCallback, motionLines, h1, h2, writesLocked, usesOnlyMutex]

/-- Claim C10: a motion sample whose tag is neither the accelerometer flag
nor the gyroscope flag produces no formatted line; the callback's trace is
just the lock, the unconditional flush, and the unlock. -/
theorem motion_unknown_tag_silent (d : ImuData)
    (h1 : d.flag ≠ MYNTEYE_IMU_ACCEL) (h2 : d.flag ≠ MYNTEYE_IMU_GYRO) :
    motionLines d = [] ∧
    motionCallback d = [Act.lock 0, Act.flushOut, Act.unlock 0] := by
  have hl : motionLines d = [] := by simp [motionLines, h1, h2]
  exact ⟨hl, by simp [motionCallback, hl]⟩

theorem motion_unknown_tag_silent_witness :
    motionLines ⟨5, 0, 0, 0, 0, 0, 0, 0, 0⟩ = [] ∧
    motionCallback ⟨5, 0, 0, 0, 0, 0, 0, 0, 0⟩ =
      [Act.lock 0, Act.flushOut, Act.unlock 0] :=
  motion_unknown_tag_silent ⟨5, 0, 0, 0, 0, 0, 0, 0, 0⟩ (by decide)
    (by decide)

end Mynteyed
